import Mathlib

/-!
Shallow embedding of `tukaan/_misc.py` (color conversion kernel, the `Color`
value object, `Clipboard.get`, and the `ScreenDistance` unit converter).

Python floats are modelled as exact rationals (`ℚ`), Python ints as `ℤ`/`ℕ`,
and raised exceptions as `Except PyErr` values.  All concrete inputs used in
the theorems below were chosen so that the exact-rational value of every
rounded quantity agrees with its IEEE-double counterpart (no rounding ties
that double arithmetic would resolve differently).
-/

namespace Tukaan

/-- Kinds of Python exceptions that the embedded code can raise. -/
inductive PyErr where
  | valueError
  | indexError
  | typeError
  | keyError
  | colorError
  | zeroDivisionError
  | notImplementedError
  | tclError
  | attributeError
deriving DecidableEq

/-- Floor of a rational, written so that it evaluates by `Int` division
(the `⌊⌋` of Mathlib is propositionally equal, see `ratFloor_eq`). -/
def ratFloor (x : ℚ) : ℤ := x.num / (x.den : ℤ)

theorem ratFloor_eq (x : ℚ) : ratFloor x = ⌊x⌋ := Rat.floor_def.symm

/-- Truncation toward zero: Python `int(x)` applied to a float. -/
def ratTrunc (x : ℚ) : ℤ := Int.tdiv x.num (x.den : ℤ)

/-- Python 3 `round(x)` / `round(x, 0)`: round to the nearest integer,
ties to the even integer (banker's rounding). -/
def pyround (x : ℚ) : ℤ :=
  let n := ratFloor x
  if x - n < 1/2 then n
  else if 1/2 < x - n then n + 1
  else if n % 2 = 0 then n else n + 1

/-- `intround` from `_misc.py` line 27: `lambda x: int(round(x, 0))`. -/
def intround (x : ℚ) : ℤ := pyround x

/-- `round4` from `_misc.py` line 28: `lambda x: round(x, 4)`. -/
def round4 (x : ℚ) : ℚ := (pyround (x * 10000) : ℚ) / 10000

/-- Python float `%` for a positive modulus: `x % m = x - m*floor(x/m)`. -/
def pymod (x m : ℚ) : ℚ := x - m * (ratFloor (x / m) : ℚ)

/-! ### HEX (`_misc.py` lines 31–39) -/

/-- Hex digits of `n`, most significant first (empty for `n = 0`); the fuel
argument makes the recursion structural, `n` itself is always enough fuel. -/
def hexDigitsAux : ℕ → ℕ → List Char
  | 0, _ => []
  | fuel + 1, n =>
      if n = 0 then [] else hexDigitsAux fuel (n / 16) ++ [Nat.digitChar (n % 16)]

def hexDigits (n : ℕ) : List Char := hexDigitsAux n n

/-- Python format spec `02x`: lowercase hex, zero-padded to width at least 2. -/
def fmt02x (n : ℕ) : List Char :=
  List.replicate (2 - (hexDigits n).length) '0' ++ hexDigits n

namespace HEX

/-- `HEX.to_hex(r, g, b)`: the f-string `#{r:02x}{g:02x}{b:02x}`. -/
def to_hex (r g b : ℕ) : String :=
  ⟨'#' :: (fmt02x r ++ fmt02x g ++ fmt02x b)⟩

end HEX

/-- Value of one hex digit, upper or lower case (as accepted by
Python `int(s, 16)`). -/
def hexVal (c : Char) : Option ℕ :=
  if '0' ≤ c ∧ c ≤ '9' then some (c.toNat - 48)
  else if 'a' ≤ c ∧ c ≤ 'f' then some (c.toNat - 87)
  else if 'A' ≤ c ∧ c ≤ 'F' then some (c.toNat - 55)
  else none

def parseHexAux (acc : ℕ) : List Char → Option ℕ
  | [] => some acc
  | c :: cs =>
      match hexVal c with
      | none => none
      | some v => parseHexAux (acc * 16 + v) cs

/-- Python `int(s, 16)` on a string of hex digits (empty input is invalid). -/
def parseHex (cs : List Char) : Option ℕ :=
  match cs with
  | [] => none
  | _ => parseHexAux 0 cs

namespace HEX

/-- `HEX.from_hex(hex)`: strip leading `#`, parse base 16, split by shifting
and masking (`int_value >> 16, int_value >> 8 & 0xFF, int_value & 0xFF`). -/
def from_hex (s : String) : Option (ℕ × ℕ × ℕ) :=
  match parseHex (s.data.dropWhile (fun c => c = '#')) with
  | none => none
  | some v => some (v >>> 16, (v >>> 8) % 256, v % 256)

end HEX

/-! ### HSL (`_misc.py` lines 42–96) -/

namespace HSL

/-- `HSL.to_hsl(r, g, b)`. -/
def to_hsl (r g b : ℤ) : ℤ × ℤ × ℤ :=
  let r' : ℚ := r / 255
  let g' : ℚ := g / 255
  let b' : ℚ := b / 255
  let min_value := min r' (min g' b')
  let max_value := max r' (max g' b')
  let l := (min_value + max_value) / 2
  if min_value = max_value then (0, 0, intround (l * 100))
  else
    let s :=
      if l ≤ 1/2 then (max_value - min_value) / (max_value + min_value)
      else (max_value - min_value) / (2 - max_value - min_value)
    let h :=
      if max_value = r' then (g' - b') / (max_value - min_value)
      else if max_value = g' then 2 + (b' - g') / (max_value - min_value)
      else 4 + (r' - g') / (max_value - min_value)
    (intround (h * 60), intround (s * 100), intround (l * 100))

/-- `HSL.from_hsl(h, s, l)`. -/
def from_hsl (h s l : ℚ) : ℤ × ℤ × ℤ :=
  let h' := h / 360
  let s' := s / 100
  let l' := l / 100
  if s' = 0 then (intround (l' * 255), intround (l' * 255), intround (l' * 255))
  else
    let tmp_1 := if 1/2 ≤ l' then l' + s' - l' * s' else l' * (1 + s')
    let tmp_2 := 2 * l' - tmp_1
    let func : ℚ → ℚ := fun hh =>
      let hh' := pymod hh 1
      if hh' < 1/6 then tmp_2 + (tmp_1 - tmp_2) * hh' * 6
      else if hh' < 1/2 then tmp_1
      else if hh' < 2/3 then tmp_2 + (tmp_1 - tmp_2) * (2/3 - hh') * 6
      else tmp_2
    (intround (func (h' + 1/3) * 255), intround (func h' * 255),
      intround (func (h' - 1/3) * 255))

end HSL

/-! ### HSV (`_misc.py` lines 99–144) -/

namespace HSV

/-- `HSV.to_hsv(r, g, b)`.  When `r = g = b` the Python code evaluates
`(g - b) / diff` with `diff = 0`, raising `ZeroDivisionError`. -/
def to_hsv (r g b : ℤ) : Except PyErr (ℤ × ℤ × ℤ) :=
  let r' : ℚ := r / 255
  let g' : ℚ := g / 255
  let b' : ℚ := b / 255
  let high := max r' (max g' b')
  let low := min r' (min g' b')
  let diff := high - low
  let s : ℚ := if high = 0 then 0 else diff / high * 100
  let v := high * 100
  if diff = 0 then Except.error PyErr.zeroDivisionError
  else
    let h :=
      if high = r' then pymod (60 * ((g' - b') / diff) + 360) 360
      else if high = g' then pymod (60 * ((b' - r') / diff) + 120) 360
      else pymod (60 * ((r' - g') / diff) + 240) 360
    Except.ok (intround h, intround s, intround v)

/-- `HSV.from_hsv(h, s, v)`. -/
def from_hsv (h s v : ℚ) : ℤ × ℤ × ℤ :=
  let h' := h / 360
  let s' := s / 100
  let v' := v / 100
  if s' = 0 then (intround (v' * 255), intround (v' * 255), intround (v' * 255))
  else
    let i := ratTrunc (h' * 6)
    let f := h' * 6 - i
    let p := v' * (1 - s')
    let q := v' * (1 - s' * f)
    let t := v' * (1 - s' * (1 - f))
    let idx := i % 6
    let rgb : ℚ × ℚ × ℚ :=
      if idx = 0 then (v', t, p)
      else if idx = 1 then (q, v', p)
      else if idx = 2 then (p, v', t)
      else if idx = 3 then (p, q, v')
      else if idx = 4 then (t, p, v')
      else (v', p, q)
    (intround (rgb.1 * 255), intround (rgb.2.1 * 255), intround (rgb.2.2 * 255))

end HSV

/-! ### CMYK (`_misc.py` lines 147–173) -/

namespace CMYK

/-- `CMYK.to_cmyk(r, g, b)`. -/
def to_cmyk (r g b : ℤ) : ℤ × ℤ × ℤ × ℤ :=
  if r = 0 ∧ g = 0 ∧ b = 0 then (0, 0, 0, 100)
  else
    let c : ℚ := 1 - r / 255
    let m : ℚ := 1 - g / 255
    let y : ℚ := 1 - b / 255
    let k := min c (min m y)
    (intround ((c - k) * 100), intround ((m - k) * 100),
      intround ((y - k) * 100), intround (k * 100))

/-- `CMYK.from_cmyk(c, m, y, k)`. -/
def from_cmyk (c m y k : ℚ) : ℤ × ℤ × ℤ :=
  let c' := c / 100
  let m' := m / 100
  let y' := y / 100
  let k' := k / 100
  (intround (255 - min 1 (c' * (1 - k') + k') * 255),
    intround (255 - min 1 (m' * (1 - k') + k') * 255),
    intround (255 - min 1 (y' * (1 - k') + k') * 255))

end CMYK

/-! ### Color (`_misc.py` lines 177–339) -/

/-- A value passed for a color: either a space-tagged tuple of integers
(the keyword-argument case) or a string (the positional name case). -/
inductive ColorArg where
  | tup : List ℤ → ColorArg
  | str : String → ColorArg
deriving DecidableEq

/-- Python truthiness of the optional `name` argument: `None` and the empty
string are falsy. -/
def nameTruthy : Option String → Bool
  | none => false
  | some s => s ≠ ""

/-- `Color._length_dict` (`KeyError` on other keys is modelled by `none`). -/
def lengthDict : String → Option ℕ
  | "rgb" => some 3
  | "hsv" => some 3
  | "cmyk" => some 4
  | "hsl" => some 3
  | _ => none

/-- `Color._maximum_values`. -/
def maximumValues : String → List ℤ
  | "rgb" => [255, 255, 255]
  | "hsv" => [360, 100, 100]
  | "hsl" => [360, 100, 100]
  | "cmyk" => [100, 100, 100, 100]
  | _ => []

/-- `Color._check_in_range`: every component within `[0, limit]`, where
`zip` truncates to the shorter list. -/
def check_in_range (space : String) (color : List ℤ) : Bool :=
  ((maximumValues space).zip color).all (fun p => 0 ≤ p.2 && p.2 ≤ p.1)

/-- The regex `^#[0-9a-fA-F]{6}$` from `Color.__init__`. -/
def isHexColor (s : String) : Bool :=
  match s.data with
  | '#' :: rest => rest.length = 6 && rest.all (fun c => (hexVal c).isSome)
  | _ => false

/-- Dispatch on the color space once length and range checks passed
(the `rgb`/`hsl`/`hsv`/`cmyk` branches of `Color.__init__`); the wildcard
cases are unreachable under those checks. -/
def colorFromSpace (space : String) (color : List ℤ) : ℤ × ℤ × ℤ :=
  if space = "rgb" then
    match color with
    | [r, g, b] => (r, g, b)
    | _ => (0, 0, 0)
  else if space = "hsl" then
    match color with
    | [h, s, l] => HSL.from_hsl h s l
    | _ => (0, 0, 0)
  else if space = "hsv" then
    match color with
    | [h, s, v] => HSV.from_hsv h s v
    | _ => (0, 0, 0)
  else
    match color with
    | [c, m, y, k] => CMYK.from_cmyk c m y k
    | _ => (0, 0, 0)

/-- The `try` block of `Color.__init__` (`ColorError` and `KeyError` are
caught there and re-raised as `ColorError`, which this models directly). -/
def colorBody (space : String) (color : ColorArg) : Except PyErr (ℤ × ℤ × ℤ) :=
  if space = "hex" then
    match color with
    | ColorArg.str s =>
        if isHexColor s then
          match HEX.from_hex s with
          | some (r, g, b) => Except.ok ((r : ℤ), (g : ℤ), (b : ℤ))
          | none => Except.error PyErr.valueError
        else Except.error PyErr.colorError
    | ColorArg.tup _ => Except.error PyErr.typeError
  else
    match color with
    | ColorArg.tup xs =>
        match lengthDict space with
        | none => Except.error PyErr.colorError
        | some n =>
            if xs.length = n ∧ check_in_range space xs then
              Except.ok (colorFromSpace space xs)
            else Except.error PyErr.colorError
    | ColorArg.str s =>
        match lengthDict space with
        | none => Except.error PyErr.colorError
        | some n =>
            if s.length = n then Except.error PyErr.typeError
            else Except.error PyErr.colorError

/-- `Color.__init__(name=None, **kwargs)`: argument-count checks, selection
of `color` and `space`, then the validating `try` block.  Indexing the empty
keyword tuple (`tuple(kwargs.values())[0]` with no keyword arguments) raises
`IndexError`. -/
def colorInit (name : Option String) (kwargs : List (String × ColorArg)) :
    Except PyErr (ℤ × ℤ × ℤ) :=
  if kwargs.length > 1 then Except.error PyErr.valueError
  else if nameTruthy name ∧ kwargs ≠ [] then Except.error PyErr.valueError
  else
    let colorOpt : Option ColorArg :=
      match name with
      | none => kwargs.head?.map Prod.snd
      | some s => some (ColorArg.str s)
    match colorOpt with
    | none => Except.error PyErr.indexError
    | some color =>
        let spaceOpt : Option String :=
          if nameTruthy name then some "hex" else kwargs.head?.map Prod.fst
        match spaceOpt with
        | none => Except.error PyErr.indexError
        | some space => colorBody space color

namespace Color

/-- `Color.mix(other, ratio)`: `ratio` is taken apart as the reduced
fraction `a/b` (`Fraction.from_float(ratio).as_integer_ratio()`), the
weights are `a/(a+b)` and `b/(a+b)`, each channel is rounded with the
builtin `round`, and the result is rebuilt via `Color(rgb=...)`. -/
def mix (c1 c2 : ℤ × ℤ × ℤ) (ratio : ℚ) : Except PyErr (ℤ × ℤ × ℤ) :=
  let a : ℚ := (ratio.num : ℚ)
  let b : ℚ := (ratio.den : ℚ)
  let amount_of_clr_1 := 1 / (a + b) * a
  let amount_of_clr_2 := 1 / (a + b) * b
  let r := pyround (amount_of_clr_1 * c1.1 + amount_of_clr_2 * c2.1)
  let g := pyround (amount_of_clr_1 * c1.2.1 + amount_of_clr_2 * c2.2.1)
  let b' := pyround (amount_of_clr_1 * c1.2.2 + amount_of_clr_2 * c2.2.2)
  colorInit none [("rgb", ColorArg.tup [r, g, b'])]

end Color

/-! ### Clipboard (`_misc.py` lines 342–381) -/

namespace Clipboard

/-- `Clipboard.get()`: try the toolkit clipboard; on `TclError` fall back to
`ImageGrab.grabclipboard()`; on `NotImplementedError` return `None`.  The two
collaborator calls are passed in as their outcomes. -/
def get (native grab : Except PyErr String) : Except PyErr (Option String) :=
  match native with
  | Except.ok s => Except.ok (some s)
  | Except.error e =>
      if e = PyErr.tclError then
        match grab with
        | Except.ok s => Except.ok (some s)
        | Except.error e2 =>
            if e2 = PyErr.notImplementedError then Except.ok none
            else Except.error e2
      else Except.error e

end Clipboard

/-! ### ScreenDistance (`_misc.py` lines 600–667) -/

/-- The decimal value of one digit character. -/
def digVal (c : Char) : Option ℕ :=
  if '0' ≤ c ∧ c ≤ '9' then some (c.toNat - 48) else none

def parseDigitsAux (acc : ℕ) : List Char → Option ℕ
  | [] => some acc
  | c :: cs =>
      match digVal c with
      | none => none
      | some v => parseDigitsAux (acc * 10 + v) cs

/-- Decimal digits of a nonempty string (helper for Python `int(s)`). -/
def parseDigits (cs : List Char) : Option ℕ :=
  match cs with
  | [] => none
  | _ => parseDigitsAux 0 cs

/-- Python `int(s)` for base 10 (`none` models the `ValueError`). -/
def parseInt (cs : List Char) : Option ℤ :=
  match cs with
  | '-' :: rest => (parseDigits rest).map (fun n => -(n : ℤ))
  | '+' :: rest => (parseDigits rest).map (fun n => (n : ℤ))
  | _ => (parseDigits cs).map (fun n => (n : ℤ))

/-- The mutable state of the `ScreenDistance` class: the `dpi` class
attribute written by `cls.dpi = Screen.ppi` inside `__new__` (absent before
the first construction). -/
structure SDClass where
  dpi : Option ℚ
deriving DecidableEq

/-- Modelled from the spec: the external toolkit's `winfo fpixels` query for
an amount tagged with one of the unit suffixes of
`ScreenDistance._tcl_units`, at the display's current DPI — mm: `DPI/25.4`,
cm: `DPI/2.54`, inch: `DPI` directly. -/
def fpixels (displayDpi amount : ℚ) (unit : String) : ℚ :=
  if unit = "c" then amount * (displayDpi / 2.54)
  else if unit = "m" then amount * (displayDpi / 25.4)
  else if unit = "i" then amount * displayDpi
  else amount

namespace ScreenDistance

/-- `ScreenDistance.__new__(cls, px=0, mm=0, cm=0, inch=0)`: each truthy
amount is converted to pixels (`winfo fpixels` for the non-px units), the
contributions are summed, and the display's current DPI is stored on the
class (`cls.dpi = Screen.ppi`).  Returns the new instance's `distance`
field together with the updated class state. -/
def new (displayDpi px mm cm inch : ℚ) (_st : SDClass) : ℚ × SDClass :=
  let distance :=
    (if cm = 0 then 0 else fpixels displayDpi cm "c")
    + (if px = 0 then 0 else px)
    + (if mm = 0 then 0 else fpixels displayDpi mm "m")
    + (if inch = 0 then 0 else fpixels displayDpi inch "i")
  (distance, { dpi := some displayDpi })

/-- The `mm` property: `round4(self.distance / (self.dpi / 25.4))`, where
`self.dpi` resolves to the class attribute (`AttributeError` before any
construction). -/
def mm (distance : ℚ) (st : SDClass) : Except PyErr ℚ :=
  match st.dpi with
  | none => Except.error PyErr.attributeError
  | some d => Except.ok (round4 (distance / (d / 25.4)))

/-- The `cm` property: `round4(self.distance / (self.dpi / 2.54))`. -/
def cm (distance : ℚ) (st : SDClass) : Except PyErr ℚ :=
  match st.dpi with
  | none => Except.error PyErr.attributeError
  | some d => Except.ok (round4 (distance / (d / 2.54)))

/-- The `inch` property: `round4(self.distance / self.dpi)`. -/
def inch (distance : ℚ) (st : SDClass) : Except PyErr ℚ :=
  match st.dpi with
  | none => Except.error PyErr.attributeError
  | some d => Except.ok (round4 (distance / d))

/-- `ScreenDistance.from_tcl(tcl_value)`: the last character selects the
unit, and `int(tcl_value[:-1])` — the string without its last character —
is the amount passed to the constructor (in every branch, including the
pixel fallthrough). -/
def from_tcl (displayDpi : ℚ) (s : String) (st : SDClass) :
    Except PyErr (ℚ × SDClass) :=
  match s.data.getLast? with
  | none => Except.error PyErr.indexError
  | some u =>
      match parseInt s.data.dropLast with
      | none => Except.error PyErr.valueError
      | some n =>
          if u = 'c' then Except.ok (new displayDpi 0 0 (n : ℚ) 0 st)
          else if u = 'm' then Except.ok (new displayDpi 0 (n : ℚ) 0 0 st)
          else if u = 'i' then Except.ok (new displayDpi 0 0 0 (n : ℚ) st)
          else Except.ok (new displayDpi (n : ℚ) 0 0 0 st)

end ScreenDistance

/-! ## Theorems -/

theorem hexVal_digitChar (d : ℕ) (h : d < 16) :
    hexVal (Nat.digitChar d) = some d := by
  revert d h
  decide

theorem digitChar_ne_hash (d : ℕ) (h : d < 16) :
    decide (Nat.digitChar d = '#') = false := by
  revert d h
  decide

theorem hexDigitsAux_zero (fuel : ℕ) : hexDigitsAux fuel 0 = [] := by
  cases fuel <;> simp [hexDigitsAux]

theorem hexDigitsAux_small (fuel n : ℕ) (hf : 0 < fuel) (h0 : 0 < n)
    (h16 : n < 16) : hexDigitsAux fuel n = [Nat.digitChar n] := by
  cases fuel with
  | zero => omega
  | succ f =>
      have hn : n ≠ 0 := by omega
      have hdiv : n / 16 = 0 := Nat.div_eq_of_lt h16
      have hmod : n % 16 = n := Nat.mod_eq_of_lt h16
      simp [hexDigitsAux, hn, hdiv, hmod, hexDigitsAux_zero]

theorem fmt02x_eq (n : ℕ) (h : n ≤ 255) :
    fmt02x n = [Nat.digitChar (n / 16), Nat.digitChar (n % 16)] := by
  rcases Nat.eq_zero_or_pos n with h0 | h0
  · subst h0
    rfl
  · rcases Nat.lt_or_ge n 16 with h16 | h16
    · have : hexDigits n = [Nat.digitChar n] :=
        hexDigitsAux_small n n h0 h0 h16
      have hdiv : n / 16 = 0 := Nat.div_eq_of_lt h16
      have hmod : n % 16 = n := Nat.mod_eq_of_lt h16
      simp [fmt02x, this, hdiv, hmod, List.replicate]
      decide
    · have hn : n ≠ 0 := by omega
      have hq0 : 0 < n / 16 := Nat.div_pos h16 (by norm_num)
      have hq16 : n / 16 < 16 := by omega
      have hfuel : 0 < n - 1 := by omega
      have hstep : hexDigits n =
          hexDigitsAux (n - 1) (n / 16) ++ [Nat.digitChar (n % 16)] := by
        unfold hexDigits
        rcases Nat.exists_eq_succ_of_ne_zero hn with ⟨m, hm⟩
        rw [hm]
        simp only [hexDigitsAux]
        rw [if_neg (by omega)]
        have : m = m + 1 - 1 := by omega
        rw [← hm]
        rw [hm]
        simp
      have hsmall : hexDigitsAux (n - 1) (n / 16) = [Nat.digitChar (n / 16)] :=
        hexDigitsAux_small (n - 1) (n / 16) hfuel hq0 hq16
      rw [fmt02x, hstep, hsmall]
      simp

theorem string_data_mk (l : List Char) : (String.mk l).data = l := rfl

/-- C1: for every triple of integers `(r, g, b)` each in `[0, 255]`,
`HEX.from_hex (HEX.to_hex r g b)` returns exactly `(r, g, b)`. -/
theorem hex_roundtrip (r g b : ℕ) (hr : r ≤ 255) (hg : g ≤ 255) (hb : b ≤ 255) :
    HEX.from_hex (HEX.to_hex r g b) = some (r, g, b) := by
  have h1 : r / 16 < 16 := by omega
  have h2 : r % 16 < 16 := by omega
  have h3 : g / 16 < 16 := by omega
  have h4 : g % 16 < 16 := by omega
  have h5 : b / 16 < 16 := by omega
  have h6 : b % 16 < 16 := by omega
  unfold HEX.to_hex HEX.from_hex
  rw [fmt02x_eq r hr, fmt02x_eq g hg, fmt02x_eq b hb, string_data_mk]
  simp only [List.cons_append, List.nil_append, List.append_assoc]
  rw [List.dropWhile]
  simp only [decide_eq_true_eq, if_pos rfl]
  rw [List.dropWhile]
  simp only [digitChar_ne_hash (r / 16) h1, Bool.false_eq_true, if_false]
  simp only [parseHex, parseHexAux, hexVal_digitChar (r / 16) h1,
    hexVal_digitChar (r % 16) h2, hexVal_digitChar (g / 16) h3,
    hexVal_digitChar (g % 16) h4, hexVal_digitChar (b / 16) h5,
    hexVal_digitChar (b % 16) h6]
  simp only [Nat.shiftRight_eq_div_pow, decide_True]
  have hp16 : (2 : ℕ) ^ 16 = 65536 := by norm_num
  have hp8 : (2 : ℕ) ^ 8 = 256 := by norm_num
  rw [hp16, hp8]
  simp only [Option.some.injEq, Prod.mk.injEq]
  refine ⟨?_, ?_, ?_⟩ <;> omega

/-- C1 witness: the round-trip theorem applied at the concrete triple
`(18, 52, 86)`. -/
theorem hex_roundtrip_witness :
    (18 ≤ 255 ∧ 52 ≤ 255 ∧ 86 ≤ 255) ∧
      HEX.from_hex (HEX.to_hex 18 52 86) = some (18, 52, 86) :=
  ⟨by decide, hex_roundtrip 18 52 86 (by decide) (by decide) (by decide)⟩

/-- C2 counterexample: `Color(rgb=(0,0,0)).mix(Color(rgb=(255,255,255)), 0.5)`
returns `(170, 170, 170)`, which is not `(128, 128, 128)` within rounding
tolerance (each channel is off by 42). -/
theorem mix_half_not_midpoint :
    Color.mix (0, 0, 0) (255, 255, 255) (1/2) = Except.ok (170, 170, 170) ∧
      ¬((170 - 128 : ℤ) ≤ 1) := by
  constructor
  · norm_num [Color.mix, pyround, ratFloor, colorInit, colorBody, colorFromSpace,
      check_in_range, maximumValues, lengthDict, nameTruthy]
    exact fun h => absurd h (by decide)
  · decide

/-- C2 amended: `mix` treats the reduced fraction `a/b` of `ratio` as the two
blend weights `a : b`, so with `ratio = 0.5 = 1/2` the result weighs `self`
by `1/3` and `other` by `2/3`, giving `(170, 170, 170)` for black mixed with
white. -/
theorem mix_half_result :
    Color.mix (0, 0, 0) (255, 255, 255) (1/2) =
      Except.ok (intround ((1 * 0 + 2 * 255 : ℚ) / 3),
        intround ((1 * 0 + 2 * 255 : ℚ) / 3), intround ((1 * 0 + 2 * 255 : ℚ) / 3)) := by
  have h : intround ((1 * 0 + 2 * 255 : ℚ) / 3) = 170 := by
    norm_num [intround, pyround, ratFloor]
  rw [h]
  norm_num [Color.mix, pyround, ratFloor, colorInit, colorBody, colorFromSpace,
    check_in_range, maximumValues, lengthDict, nameTruthy]
  exact fun h => absurd h (by decide)

/-- C3 counterexample: `Color()` (no positional name, no keyword arguments)
raises `IndexError` — from indexing the empty keyword tuple — not the
`ValueError` used for the argument-count complaints. -/
theorem color_no_args_not_value_error :
    colorInit none [] = Except.error PyErr.indexError ∧
      PyErr.indexError ≠ PyErr.valueError :=
  ⟨rfl, by decide⟩

/-- C3 amended: `Color()` with no arguments fails with an `IndexError`
(unhandled indexing of the empty keyword tuple), a different error kind from
the `ValueError` raised when both a name and a keyword, or more than one
keyword, are given. -/
theorem color_arg_count_errors :
    colorInit none [] = Except.error PyErr.indexError ∧
      colorInit (some "#000000") [("rgb", ColorArg.tup [1, 2, 3])] =
        Except.error PyErr.valueError ∧
      colorInit none
          [("rgb", ColorArg.tup [1, 2, 3]), ("hsv", ColorArg.tup [1, 2, 3])] =
        Except.error PyErr.valueError :=
  ⟨rfl, rfl, rfl⟩

/-- C4: `ScreenDistance.from_tcl("96")` parses `int("96"[:-1]) = int("9")`,
so the resulting pixel amount is `9`, not the full numeric value `96`. -/
theorem from_tcl_bare_truncates :
    ScreenDistance.from_tcl 96 "96" ⟨none⟩ = Except.ok (9, ⟨some 96⟩) ∧
      (9 : ℚ) ≠ 96 := by
  constructor
  · have h : ScreenDistance.from_tcl 96 "96" ⟨none⟩ =
        Except.ok (ScreenDistance.new 96 ((9 : ℤ) : ℚ) 0 0 0 ⟨none⟩) := rfl
    rw [h]
    norm_num [ScreenDistance.new, fpixels]
  · norm_num

/-- C5 counterexample: a `ScreenDistance` built while the display reports
DPI 100 converts `100` px to `25.4` mm, but after a second `ScreenDistance`
is constructed while the display reports DPI 200, the same first instance
converts the same `100` px to `12.7` mm: the construction-time DPI is not
per-instance. -/
theorem screendistance_dpi_not_snapshotted :
    ScreenDistance.mm (ScreenDistance.new 100 100 0 0 0 ⟨none⟩).1
        (ScreenDistance.new 100 100 0 0 0 ⟨none⟩).2 = Except.ok 25.4 ∧
      ScreenDistance.mm (ScreenDistance.new 100 100 0 0 0 ⟨none⟩).1
        (ScreenDistance.new 200 50 0 0 0
          (ScreenDistance.new 100 100 0 0 0 ⟨none⟩).2).2 = Except.ok 12.7 ∧
      (25.4 : ℚ) ≠ 12.7 := by
  refine ⟨?_, ?_, by norm_num⟩
  · norm_num [ScreenDistance.mm, ScreenDistance.new, round4, pyround, ratFloor]
  · norm_num [ScreenDistance.mm, ScreenDistance.new, round4, pyround, ratFloor]

/-- C5 amended: `cls.dpi = Screen.ppi` stores the DPI on the class, so the
`mm` accessor of any instance always uses the DPI seen by the most recent
construction, whatever the class state was before. -/
theorem screendistance_dpi_class_wide
    (dpi px mmAmt cmAmt inchAmt dist : ℚ) (st : SDClass) :
    ScreenDistance.mm dist (ScreenDistance.new dpi px mmAmt cmAmt inchAmt st).2 =
      Except.ok (round4 (dist / (dpi / 25.4))) := by
  rfl

/-- C6: the conversion kernel's round trips are not within ±1 everywhere:
`(128, 0, 0)` goes to CMYK `(0, 50, 50, 50)` and comes back as
`(128, 64, 64)` (green off by 64, because `to_cmyk` omits the division by
`1 - k` that `from_cmyk`'s formula inverts), and `HSV.to_hsv` raises
`ZeroDivisionError` on every achromatic triple such as `(0, 0, 0)`. -/
theorem cmyk_hsv_roundtrip_fails :
    CMYK.to_cmyk 128 0 0 = (0, 50, 50, 50) ∧
      CMYK.from_cmyk 0 50 50 50 = (128, 64, 64) ∧
      HSV.to_hsv 0 0 0 = Except.error PyErr.zeroDivisionError := by
  refine ⟨?_, ?_, ?_⟩
  · norm_num [CMYK.to_cmyk, intround, pyround, ratFloor, min_def]
  · norm_num [CMYK.from_cmyk, intround, pyround, ratFloor, min_def]
  · norm_num [HSV.to_hsv, min_def, max_def]

/-- C7 counterexample: `2.5` has fractional part exactly `0.5`, and
`intround 2.5 = 2` (the even neighbor), not `3` as round-half-away-from-zero
would give. -/
theorem intround_half_not_away_from_zero :
    intround (5/2) = 2 ∧ intround (5/2) ≠ 3 := by
  have h : intround (5/2) = 2 := by norm_num [intround, pyround, ratFloor]
  exact ⟨h, by rw [h]; decide⟩

theorem pyround_add_half (n : ℤ) :
    pyround ((n : ℚ) + 1/2) = if n % 2 = 0 then n else n + 1 := by
  have hfl : ratFloor ((n : ℚ) + 1/2) = n := by
    rw [ratFloor_eq, add_comm, Int.floor_add_int]
    norm_num
  have hsub : ((n : ℚ) + 1/2) - (n : ℚ) = 1/2 := by ring
  unfold pyround
  simp only [hfl, hsub]
  rw [if_neg (by norm_num), if_neg (by norm_num)]

/-- C7 amended: at every value whose fractional part is exactly `0.5`, the
rounding helper `intround` rounds to the nearest even integer (Python 3
banker's rounding): the result is even, and is one of the two neighbors. -/
theorem intround_half_to_even (n : ℤ) :
    Even (intround ((n : ℚ) + 1/2)) ∧
      (intround ((n : ℚ) + 1/2) = n ∨ intround ((n : ℚ) + 1/2) = n + 1) := by
  unfold intround
  rw [pyround_add_half]
  by_cases hpar : n % 2 = 0
  · rw [if_pos hpar]
    exact ⟨Int.even_iff.mpr hpar, Or.inl rfl⟩
  · rw [if_neg hpar]
    refine ⟨Int.even_iff.mpr ?_, Or.inr rfl⟩
    omega

/-- C8: the canonical pixel distance of `ScreenDistance(px, mm, cm, inch)`
is the sum of all four unit contributions at the display's current DPI:
`px + mm·(DPI/25.4) + cm·(DPI/2.54) + inch·DPI`. -/
theorem screendistance_new_additive
    (dpi px mmAmt cmAmt inchAmt : ℚ) (st : SDClass) :
    (ScreenDistance.new dpi px mmAmt cmAmt inchAmt st).1 =
      px + mmAmt * (dpi / 25.4) + cmAmt * (dpi / 2.54) + inchAmt * dpi := by
  unfold ScreenDistance.new fpixels
  rcases eq_or_ne cmAmt 0 with h1 | h1 <;> rcases eq_or_ne px 0 with h2 | h2 <;>
    rcases eq_or_ne mmAmt 0 with h3 | h3 <;>
    rcases eq_or_ne inchAmt 0 with h4 | h4 <;>
    simp [h1, h2, h3, h4] <;> ring

/-- C9: when the toolkit clipboard get raises `TclError` and the image-grab
fallback raises `NotImplementedError`, `Clipboard.get` returns `None`
instead of raising. -/
theorem clipboard_get_fallback :
    Clipboard.get (Except.error PyErr.tclError)
      (Except.error PyErr.notImplementedError) = Except.ok none := rfl

/-- C10: `HSL.to_hsl(255, 0, 128)` — red is the strict maximum channel and
blue exceeds green — returns hue `-30`, a negative value: the hue is not
wrapped into `[0, 360)`. -/
theorem to_hsl_negative_hue :
    HSL.to_hsl 255 0 128 = (-30, 100, 50) ∧ (-30 : ℤ) < 0 := by
  refine ⟨?_, by decide⟩
  norm_num [HSL.to_hsl, intround, pyround, ratFloor, min_def, max_def]

end Tukaan
